import Mathlib

set_option maxRecDepth 8000

/-!
Verification of the product placement composition pipeline of the
smart-design repository.

The embedding covers, from the source:
* the geometry normalizer `resizeImage` and the geometry restorer
  `cropToOriginalAspectRatio` (services/geminiService, src/unnamed/part_007);
* the placement-rule lookup `getPlacementInstructions` and the response
  validation of `generateCompositeImage` (same file);
* the collision-avoiding placement search `generateSmartPosition` and the
  multi-item orchestrator `handleApplyProducts` (src/unnamed/part_009), and
  the single-item `handleApplyProducts` of src/unnamed/part_008.

Numbers are modelled over the rationals: every arithmetic operation the
source performs on the values of interest (division of dimensions, affine
maps into placement zones, squared distances) is exact on the rationals
involved.  Integer coercion of HTML canvas dimensions is modelled with
Int.floor.  The distance test of the source compares
sqrt(dx^2 + dy^2) with 25; since both sides are nonnegative this is
equivalent to comparing dx^2 + dy^2 with 25^2, which is the decidable
form used here.
-/

namespace SmartDesign

/-- Where the scaled source content sits inside the square
targetDimension x targetDimension canvas produced by the normalizer. -/
structure ContentRect where
  contentWidth : ℚ
  contentHeight : ℚ
  offsetX : ℚ
  offsetY : ℚ
deriving DecidableEq

/-- Content geometry computed by resizeImage (src/unnamed/part_007,
lines 117-133): aspect = width / height; a landscape source
(aspect > 1) gets contentWidth = targetDimension and
contentHeight = targetDimension / aspect, otherwise
contentHeight = targetDimension and contentWidth =
targetDimension * aspect; the content is centered. -/
def resizeGeometry (width height targetDimension : ℚ) : ContentRect :=
  let aspect := width / height
  let newWidth := if aspect > 1 then targetDimension else targetDimension * aspect
  let newHeight := if aspect > 1 then targetDimension / aspect else targetDimension
  { contentWidth := newWidth
    contentHeight := newHeight
    offsetX := (targetDimension - newWidth) / 2
    offsetY := (targetDimension - newHeight) / 2 }

/-- The observable output of the normalizer: canvas size, the fill
painted before the source is drawn, the content rectangle, and the
forced output encoding. -/
structure NormalizedImage where
  canvasWidth : ℚ
  canvasHeight : ℚ
  fillStyle : String
  content : ContentRect
  mimeType : String
  quality : ℚ
deriving DecidableEq

/-- Model of resizeImage (src/unnamed/part_007, lines 92-159): the square
canvas of the target dimension is filled with black before the source is
drawn centered on it, and the output is encoded as image/jpeg at quality
0.95 whatever the source MIME type `sourceMime` was. -/
def resizeImage (sourceMime : String) (width height targetDimension : ℚ) :
    NormalizedImage :=
  { canvasWidth := targetDimension
    canvasHeight := targetDimension
    fillStyle := "black"
    content := resizeGeometry width height targetDimension
    mimeType := "image/jpeg"
    quality := 19 / 20 }

/-- The geometry normalizer exactly as the specification (section 4.1 and
claim C2) words it: aspect = width/height; if aspect > 1 then
content_width = D and content_height = D/aspect, otherwise
content_height = D and content_width = D*aspect; a D x D canvas filled
with pure black; centered offsets; output forced to JPEG quality 0.95. -/
def normalizeSpec (width height targetDimension : ℚ) : NormalizedImage :=
  let aspect := width / height
  let contentWidth := if aspect > 1 then targetDimension else targetDimension * aspect
  let contentHeight := if aspect > 1 then targetDimension / aspect else targetDimension
  { canvasWidth := targetDimension
    canvasHeight := targetDimension
    fillStyle := "black"
    content :=
      { contentWidth := contentWidth
        contentHeight := contentHeight
        offsetX := (targetDimension - contentWidth) / 2
        offsetY := (targetDimension - contentHeight) / 2 }
    mimeType := "image/jpeg"
    quality := 19 / 20 }

/-- Output of the crop helper cropToOriginalAspectRatio
(src/unnamed/part_007, lines 31-87): the recomputed content dimensions
and source offsets of the crop, the integral pixel dimensions the HTML
canvas actually stores (canvas width/height coerce floats to integers,
modelled by Int.floor), and the re-encoding parameters. -/
structure CroppedImage where
  width : ℚ
  height : ℚ
  srcX : ℚ
  srcY : ℚ
  canvasWidth : ℤ
  canvasHeight : ℤ
  mimeType : String
  quality : ℚ
deriving DecidableEq

/-- Model of cropToOriginalAspectRatio (src/unnamed/part_007, lines
31-87): re-calculates the content area of the padded square from the
original aspect ratio and the target dimension, then extracts exactly
that sub-region onto a new canvas, re-encoded as image/jpeg 0.95. -/
def cropToOriginalAspect (originalWidth originalHeight targetDimension : ℚ) :
    CroppedImage :=
  let aspect := originalWidth / originalHeight
  let contentWidth := if aspect > 1 then targetDimension else targetDimension * aspect
  let contentHeight := if aspect > 1 then targetDimension / aspect else targetDimension
  { width := contentWidth
    height := contentHeight
    srcX := (targetDimension - contentWidth) / 2
    srcY := (targetDimension - contentHeight) / 2
    canvasWidth := ⌊contentWidth⌋
    canvasHeight := ⌊contentHeight⌋
    mimeType := "image/jpeg"
    quality := 19 / 20 }

/-- Product category, as in the source type ('plant' | 'tile'). -/
inductive ProductType where
  | plant
  | tile
deriving DecidableEq

/-- An already-placed position as accumulated by handleApplyProducts
(src/unnamed/part_009): percentage coordinates plus the category. -/
structure PlacedPosition where
  xPercent : ℚ
  yPercent : ℚ
  type : ProductType
deriving DecidableEq

/-- A position in percentage coordinates, the return value of
generateSmartPosition. -/
structure Position where
  xPercent : ℚ
  yPercent : ℚ
deriving DecidableEq

/-- A rectangular placement zone in percentage coordinates. -/
structure Zone where
  xMin : ℚ
  xMax : ℚ
  yMin : ℚ
  yMax : ℚ
deriving DecidableEq

/-- Wall zones for tiles (src/unnamed/part_009, lines 95-99): left wall,
right wall, top wall. -/
def wallAreas : List Zone :=
  [⟨5, 25, 10, 40⟩, ⟨75, 95, 10, 40⟩, ⟨20, 80, 5, 25⟩]

/-- Surface zones for plants (src/unnamed/part_009, lines 105-108):
floor area and table/shelf area. -/
def surfaceAreas : List Zone :=
  [⟨15, 85, 60, 90⟩, ⟨20, 80, 40, 70⟩]

/-- The three uniform random numbers one attempt of the search consumes:
one to select the zone and one for each coordinate.  Math.random draws
lie in [0, 1). -/
structure Draw where
  zoneRand : ℚ
  xRand : ℚ
  yRand : ℚ
deriving DecidableEq

/-- The predicate expressing that a draw is a possible triple of
Math.random results: every component lies in [0, 1). -/
def validDraw (d : Draw) : Prop :=
  0 ≤ d.zoneRand ∧ d.zoneRand < 1 ∧ 0 ≤ d.xRand ∧ d.xRand < 1 ∧
    0 ≤ d.yRand ∧ d.yRand < 1

instance (d : Draw) : Decidable (validDraw d) := by
  unfold validDraw
  infer_instance

/-- Zone selection, source line 100 and 109:
areas[Math.floor(Math.random() * areas.length)]. -/
def pickZone (areas : List Zone) (r : ℚ) : Zone :=
  areas.getD (⌊r * (areas.length : ℚ)⌋).toNat ⟨0, 0, 0, 0⟩

/-- One randomized candidate position (src/unnamed/part_009, lines
93-112): pick a zone of the category, then an affine point inside it. -/
def candidate (isTile : Bool) (d : Draw) : Position :=
  let areas := if isTile then wallAreas else surfaceAreas
  let area := pickZone areas d.zoneRand
  { xPercent := area.xMin + d.xRand * (area.xMax - area.xMin)
    yPercent := area.yMin + d.yRand * (area.yMax - area.yMin) }

/-- Conflict check (src/unnamed/part_009, lines 114-121): the candidate
conflicts when some already-placed position is at Euclidean distance
below minDistance = 25.  The source compares sqrt(dx^2 + dy^2) < 25;
both sides being nonnegative this equals the squared comparison used
here. -/
def conflicts (p : Position) (placed : List PlacedPosition) : Bool :=
  placed.any fun q =>
    decide ((p.xPercent - q.xPercent) ^ 2 + (p.yPercent - q.yPercent) ^ 2 < 25 ^ 2)

/-- Deterministic fallback (src/unnamed/part_009, lines 128-132):
x = 20 + (count*20) % 60 and y = 15 + (count*10) % 25 for tiles,
70 + (count*10) % 20 for plants, where count is the number of
already-placed positions. -/
def fallbackPosition (isTile : Bool) (count : ℕ) : Position :=
  { xPercent := ((20 + (count * 20) % 60 : ℕ) : ℚ)
    yPercent := if isTile then ((15 + (count * 10) % 25 : ℕ) : ℚ)
                else ((70 + (count * 10) % 20 : ℕ) : ℚ) }

/-- The attempt loop of generateSmartPosition: `fuel` remaining attempts,
`attempt` the index of the next random draw;  a non-conflicting
candidate is returned at once, otherwise the next attempt runs, and the
fallback is returned when the attempts are exhausted. -/
def smartPositionGo (isTile : Bool) (placed : List PlacedPosition)
    (rng : ℕ → Draw) : ℕ → ℕ → Position
  | _, 0 => fallbackPosition isTile placed.length
  | attempt, fuel + 1 =>
    let c := candidate isTile (rng attempt)
    if conflicts c placed then smartPositionGo isTile placed rng (attempt + 1) fuel
    else c

/-- Model of generateSmartPosition (src/unnamed/part_009, lines 86-133):
maxAttempts = 50 randomized attempts, then the deterministic fallback.
The random source is the explicit stream `rng` of per-attempt draws. -/
def generateSmartPosition (isTile : Bool) (placed : List PlacedPosition)
    (rng : ℕ → Draw) : Position :=
  smartPositionGo isTile placed rng 0 50

/-- Minimum-separation relation between placed positions: squared
Euclidean percentage distance at least 25^2 (equivalently, distance at
least 25). -/
def separated (p q : PlacedPosition) : Prop :=
  25 ^ 2 ≤ (p.xPercent - q.xPercent) ^ 2 + (p.yPercent - q.yPercent) ^ 2

/-- Some attempt among the first 50 draws produces a candidate that does
not conflict with the already-placed positions, i.e. the search accepts
a randomized draw instead of falling back. -/
def accepted (isTile : Bool) (placed : List PlacedPosition) (rng : ℕ → Draw) : Prop :=
  ∃ k, k < 50 ∧ conflicts (candidate isTile (rng k)) placed = false

/-- Category tag recorded with a placed position
(product.isTile ? 'tile' : 'plant'). -/
def typeOf (isTile : Bool) : ProductType :=
  if isTile then ProductType.tile else ProductType.plant

/-- Sequential placement as handleApplyProducts performs it
(src/unnamed/part_009, lines 156-180): each item's position is generated
against the accumulated list, then appended to it. -/
def placeSeq (acc : List PlacedPosition) :
    List (Bool × (ℕ → Draw)) → List PlacedPosition
  | [] => acc
  | (t, rng) :: rest =>
    let p := generateSmartPosition t acc rng
    placeSeq (acc ++ [⟨p.xPercent, p.yPercent, typeOf t⟩]) rest

/-- Every step of a sequential placement run accepts a randomized draw
(no step used the fallback). -/
def stepwiseAccepted (acc : List PlacedPosition) :
    List (Bool × (ℕ → Draw)) → Prop
  | [] => True
  | (t, rng) :: rest =>
    accepted t acc rng ∧
      stepwiseAccepted
        (acc ++ [⟨(generateSmartPosition t acc rng).xPercent,
                  (generateSmartPosition t acc rng).yPercent, typeOf t⟩]) rest

/-- Tile rule of getPlacementInstructions (src/unnamed/part_007, line
243). -/
def tileInstructions : String :=
  "Place the gallery wall (3-4 pictures arranged together) on a wall surface in the room. Look for empty wall spaces, above furniture like sofas or beds, in hallways, or on feature walls. Position it at eye level (typically 57-60 inches from the floor) and ensure it complements the room\x27s existing decor and color scheme. The gallery wall should be properly sized and oriented for the wall space, maintaining the same shape and arrangement of the 3-4 pictures together."

/-- Small-plant rule (src/unnamed/part_007, line 249). -/
def smallPlantInstructions : String :=
  "Place the plant on elevated surfaces like desks, tables, shelves, or countertops where there is reasonable space. Choose locations that make sense for small plants - near windows, on side tables, or on work surfaces."

/-- Medium-plant rule (src/unnamed/part_007, line 251). -/
def mediumPlantInstructions : String :=
  "Place the plant on the floor near furniture, in corners, or on larger surfaces like coffee tables or dining tables. Position it where it complements the existing furniture without blocking walkways."

/-- Large-plant rule (src/unnamed/part_007, line 253). -/
def largePlantInstructions : String :=
  "Place the plant on the floor in open spaces, corners, or as a focal point in the room. Ensure it has enough space around it and doesn\x27t obstruct movement or block important views."

/-- Huge-plant rule (src/unnamed/part_007, line 255). -/
def hugePlantInstructions : String :=
  "Place the plant on the floor in large open areas where it can serve as a statement piece. Position it in corners, near windows, or as a room divider. Make sure it has plenty of space and doesn\x27t overwhelm the room."

/-- Default plant rule (src/unnamed/part_007, line 257). -/
def defaultPlantInstructions : String :=
  "Place the plant in a logical location that makes sense for its size and the room layout."

/-- JavaScript's String.toLowerCase on the strings involved here:
character-wise lowercasing. -/
def lowercase (s : String) : String := String.mk (s.data.map Char.toLower)

/-- The switch over size.toLowerCase() of the plant branch
(src/unnamed/part_007, lines 247-258), embedded as the equivalent
first-match chain a switch statement performs. -/
def plantInstructionsFor (u : String) : String :=
  if u = "small" then smallPlantInstructions
  else if u = "medium" then mediumPlantInstructions
  else if u = "large" then largePlantInstructions
  else if u = "huge" then hugePlantInstructions
  else defaultPlantInstructions

/-- Model of getPlacementInstructions (src/unnamed/part_007, lines
238-259): tiles always get the gallery-wall rule; plants dispatch on the
lowercased size class with a default fallback. -/
def getPlacementInstructions (ptype : ProductType) (size : String) : String :=
  match ptype with
  | ProductType.tile => tileInstructions
  | ProductType.plant => plantInstructionsFor (lowercase size)

/-- An inline image payload of a generation response part. -/
structure InlineData where
  mimeType : String
  data : String
deriving DecidableEq

/-- A part of the generation response: it may carry text, inline image
data, both, or neither. -/
structure ResponsePart where
  text : Option String
  inlineData : Option InlineData
deriving DecidableEq

/-- The content of a response candidate. -/
structure Content where
  parts : Option (List ResponsePart)
deriving DecidableEq

/-- One candidate of the generation response. -/
structure ResponseCandidate where
  content : Option Content
deriving DecidableEq

/-- The generation service response, with every level optional as in the
source's optional chaining response.candidates?.[0]?.content?.parts. -/
structure GenerateContentResponse where
  candidates : Option (List ResponseCandidate)
deriving DecidableEq

/-- The image-part lookup of generateCompositeImage
(src/unnamed/part_007, lines 296-298):
response.candidates?.[0]?.content?.parts?.find(part => part.inlineData). -/
def findImagePart (r : GenerateContentResponse) : Option ResponsePart :=
  ((((r.candidates.bind List.head?).bind ResponseCandidate.content).bind
    Content.parts).bind (List.find? fun part => part.inlineData.isSome))

/-- The error message thrown when the model returns no image
(src/unnamed/part_007, line 317). -/
def noImageMsg : String :=
  "The AI model did not return an image. Please try again."

/-- The tail of generateCompositeImage (src/unnamed/part_007, lines
296-318): if the found part has inline data, build the data URL of the
generated square and crop it back to the original aspect ratio;
otherwise throw.  The ok value is the data URL of the generated square
together with the crop applied to it. -/
def generateCompositeImageOutcome (r : GenerateContentResponse)
    (originalWidth originalHeight targetDimension : ℚ) :
    Except String (String × CroppedImage) :=
  match (findImagePart r).bind ResponsePart.inlineData with
  | some d =>
    Except.ok ("data:" ++ d.mimeType ++ ";base64," ++ d.data,
      cropToOriginalAspect originalWidth originalHeight targetDimension)
  | none => Except.error noImageMsg

/-- A File value as the app observes it: the data it was built from and
its name (dataURLtoFile, src/unnamed/part_008 lines 17-32). -/
structure SceneFile where
  dataUrl : String
  name : String
deriving DecidableEq

def dataURLtoFile (dataurl filename : String) : SceneFile :=
  ⟨dataurl, filename⟩

/-- Wizard step of the app state machine. -/
inductive Step where
  | home
  | step1
  | step2
  | step3
deriving DecidableEq

/-- A selectable product of the single-item flow (src/unnamed/part_008). -/
structure Product8 where
  name : String
  imageUrl : String
  size : String
  ptype : ProductType
deriving DecidableEq

/-- The state handleApplyProducts of src/unnamed/part_008 reads and
writes. -/
structure AppState8 where
  sceneImage : Option SceneFile
  selectedProduct : Option Product8
  isLoading : Bool
  error : Option String
  finalResult : Option String
  isResultReady : Bool
  currentStep : Step
deriving DecidableEq

/-- Model of handleApplyProducts (src/unnamed/part_008, lines 193-250).
The outcome of the awaited generateCompositeImage call (including a
failed product-image fetch) is the explicit `gen` argument; `now` is the
Date.now() timestamp used in the generated file name.  On success the
scene image is replaced by the generated file, the result is published
and the wizard moves to step3; on failure only the error message is set
(and loading ends) — the scene image is left as it was. -/
def handleApplyProducts8 (st : AppState8) (gen : Except String String)
    (now : ℕ) : AppState8 :=
  if st.sceneImage.isNone then
    { st with error := some ("Please upload a scene image first.") }
  else if st.selectedProduct.isNone then
    { st with error := some ("Please select a product first.") }
  else
    match gen with
    | Except.ok finalImageUrl =>
      { st with
        sceneImage := some (dataURLtoFile finalImageUrl
          ("generated-scene-" ++ toString now ++ ".jpeg"))
        finalResult := some finalImageUrl
        isResultReady := true
        currentStep := Step.step3
        error := none
        isLoading := false }
    | Except.error msg =>
      { st with
        error := some ("Failed to apply product. " ++ msg)
        isLoading := false }

/-- The url the caller consumes from a generateCompositeImage outcome. -/
def composeOutcomeUrl (r : GenerateContentResponse)
    (originalWidth originalHeight targetDimension : ℚ) : Except String String :=
  (generateCompositeImageOutcome r originalWidth originalHeight
    targetDimension).map Prod.fst

/-- A selectable product of the multi-item flow (src/unnamed/part_009). -/
structure Product9 where
  name : String
  imageUrl : String
  isTile : Bool
deriving DecidableEq

/-- The state handleApplyProducts of src/unnamed/part_009 reads and
writes. -/
structure AppState9 where
  sceneImage : Option SceneFile
  selectedProducts : List Product9
  isLoading : Bool
  error : Option String
  currentStep : Step
deriving DecidableEq

/-- The sequential per-product loop of handleApplyProducts
(src/unnamed/part_009, lines 156-180).  `gen k` is the outcome of the
k-th item's fetch + generateCompositeImage call, `rng k` the random
draws its placement search consumes, `now k` its Date.now().  Each
successful item replaces the current scene (setSceneImage runs inside
the loop); the first failure aborts the loop, and the error carries the
scene state at that moment — the result of the last successful item. -/
def applyProductsLoop (gen : ℕ → Except String String)
    (rng : ℕ → ℕ → Draw) (now : ℕ → ℕ) :
    List Product9 → ℕ → SceneFile → List PlacedPosition →
      Except (String × SceneFile) SceneFile
  | [], _, scene, _ => Except.ok scene
  | p :: rest, k, scene, placed =>
    let pos := generateSmartPosition p.isTile placed (rng k)
    match gen k with
    | Except.error msg => Except.error (msg, scene)
    | Except.ok url =>
      applyProductsLoop gen rng now rest (k + 1)
        (dataURLtoFile url ("generated-scene-" ++ toString (now k) ++ ".jpeg"))
        (placed ++ [⟨pos.xPercent, pos.yPercent, typeOf p.isTile⟩])

/-- Model of the multi-item handleApplyProducts (src/unnamed/part_009,
lines 135-193): guards, then the sequential loop; on success the
selection is cleared and the wizard moves to step3; on failure the error
message is surfaced, the selection and step are untouched, and the scene
image is whatever the last successful iteration set it to. -/
def handleApplyProducts9 (st : AppState9) (gen : ℕ → Except String String)
    (rng : ℕ → ℕ → Draw) (now : ℕ → ℕ) : AppState9 :=
  if st.selectedProducts.length = 0 then
    { st with error := some ("Please select at least one product to apply.") }
  else
    match st.sceneImage with
    | none => { st with error := some ("Please upload a scene image first.") }
    | some scene =>
      match applyProductsLoop gen rng now st.selectedProducts 0 scene [] with
      | Except.ok finalScene =>
        { st with
          sceneImage := some finalScene
          selectedProducts := []
          currentStep := Step.step3
          error := none
          isLoading := false }
      | Except.error (msg, sceneSoFar) =>
        { st with
          sceneImage := some sceneSoFar
          error := some ("Failed to apply products. " ++ msg)
          isLoading := false }

/-- The scene file handleApplyProducts9's loop has stored after `k`
successful items starting from `scene`, when items are numbered from
`idx`: the original scene for k = 0, otherwise the file built from the
url of item idx + k - 1. -/
def sceneUpTo (gen : ℕ → Except String String) (now : ℕ → ℕ)
    (scene : SceneFile) (idx : ℕ) : ℕ → SceneFile
  | 0 => scene
  | k + 1 =>
    match gen (idx + k) with
    | Except.ok url =>
      dataURLtoFile url ("generated-scene-" ++ toString (now (idx + k)) ++ ".jpeg")
    | Except.error _ => scene

/-- A response whose single candidate list is empty, so no image part
can be found. -/
def emptyResponse : GenerateContentResponse := ⟨some []⟩

/-- A concrete pre-call state of the single-item flow. -/
def appState8Start : AppState8 :=
  { sceneImage := some ⟨"data:image/jpeg;base64,scene0", "scene.jpg"⟩
    selectedProduct := some ⟨"Snake Plant", "/assets/plants/snake-plant.webp",
      "sm", ProductType.plant⟩
    isLoading := true
    error := none
    finalResult := none
    isResultReady := false
    currentStep := Step.step2 }

/-- The scene a concrete multi-item run starts from. -/
def scene0File : SceneFile := ⟨"data:image/jpeg;base64,scene0", "scene.jpg"⟩

/-- A concrete pre-call state of the multi-item flow with two selected
products. -/
def appState9Start : AppState9 :=
  { sceneImage := some scene0File
    selectedProducts :=
      [⟨"Pothos", "/assets/plants/pothos.webp", false⟩,
        ⟨"Gallery Wall", "/assets/tiles/gallery.jpg", true⟩]
    isLoading := true
    error := none
    currentStep := Step.step2 }

/-- A generation oracle whose first call succeeds and whose second call
fails. -/
def genFailSecond : ℕ → Except String String := fun k =>
  if k = 0 then Except.ok ("data:image/jpeg;base64,item1")
  else Except.error ("service failure")

end SmartDesign

namespace SmartDesign

lemma abs_floor_sub_lt_one (q : ℚ) : |((⌊q⌋ : ℤ) : ℚ) - q| < 1 := by
  rw [abs_sub_lt_iff]
  constructor <;>
    linarith [Int.floor_le q, Int.lt_floor_add_one q]

/-- C1: restoring the untouched normalized square recovers the source
aspect ratio.  The restorer recomputes contentWidth, contentHeight and
the centered offsets from the aspect ratio and the target dimension by
the same formulas the normalizer used, the exact content dimensions of
the crop satisfy width/height = w/h, and the integral canvas dimensions
of the restored image differ from those exact dimensions by less than
one pixel of rounding. -/
theorem crop_restores_source_aspect (m : String) (w h D : ℚ)
    (hw : 0 < w) (hh : 0 < h) (hD : 0 < D) :
    (cropToOriginalAspect w h D).width = (resizeImage m w h D).content.contentWidth ∧
    (cropToOriginalAspect w h D).height = (resizeImage m w h D).content.contentHeight ∧
    (cropToOriginalAspect w h D).srcX = (resizeImage m w h D).content.offsetX ∧
    (cropToOriginalAspect w h D).srcY = (resizeImage m w h D).content.offsetY ∧
    (cropToOriginalAspect w h D).width / (cropToOriginalAspect w h D).height = w / h ∧
    |(((cropToOriginalAspect w h D).canvasWidth : ℤ) : ℚ) - (cropToOriginalAspect w h D).width| < 1 ∧
    |(((cropToOriginalAspect w h D).canvasHeight : ℤ) : ℚ) - (cropToOriginalAspect w h D).height| < 1 := by
  refine ⟨rfl, rfl, rfl, rfl, ?_, ?_, ?_⟩
  · have hw' : w ≠ 0 := ne_of_gt hw
    have hh' : h ≠ 0 := ne_of_gt hh
    have hD' : D ≠ 0 := ne_of_gt hD
    simp only [cropToOriginalAspect]
    by_cases hA : w / h > 1
    · rw [if_pos hA, if_pos hA, div_div_eq_mul_div]
      exact mul_div_cancel_left₀ _ hD'
    · rw [if_neg hA, if_neg hA]
      exact mul_div_cancel_left₀ _ hD'
  · exact abs_floor_sub_lt_one _
  · exact abs_floor_sub_lt_one _

/-- C2: the geometry normalizer implements exactly the algorithm the
specification states, for every source MIME type (the output encoding is
forced to JPEG quality 0.95 regardless of the source encoding). -/
theorem resizeImage_matches_spec (m : String) (w h D : ℚ) :
    resizeImage m w h D = normalizeSpec w h D := rfl

/-- C3 (amended): the normalizer offsets are always nonnegative and at
least one of them is 0; exactly one of them is 0 precisely when the
source is not square — for a square source (width = height) both offsets
are 0. -/
theorem offsets_nonneg_one_axis_zero (w h D : ℚ)
    (hw : 0 < w) (hh : 0 < h) (hD : 0 < D) :
    0 ≤ (resizeGeometry w h D).offsetX ∧
    0 ≤ (resizeGeometry w h D).offsetY ∧
    ((resizeGeometry w h D).offsetX = 0 ∨ (resizeGeometry w h D).offsetY = 0) ∧
    (w = h ↔ ((resizeGeometry w h D).offsetX = 0 ∧ (resizeGeometry w h D).offsetY = 0)) := by
  have hh' : h ≠ 0 := ne_of_gt hh
  simp only [resizeGeometry]
  by_cases hA : w / h > 1
  · rw [if_pos hA, if_pos hA]
    have hlt : D / (w / h) < D := div_lt_self hD hA
    have hne : ¬ w = h := by
      intro hwh
      rw [hwh, div_self hh'] at hA
      exact lt_irrefl 1 hA
    refine ⟨by linarith, by linarith, Or.inl (by ring), ?_⟩
    constructor
    · intro hwh; exact absurd hwh hne
    · rintro ⟨-, hy⟩
      exfalso
      have : D - D / (w / h) = 0 := by linarith
      linarith
  · rw [if_neg hA, if_neg hA]
    push_neg at hA
    have hle : D * (w / h) ≤ D := by nlinarith [div_pos hw hh]
    refine ⟨by linarith, by linarith, Or.inr (by ring), ?_⟩
    constructor
    · intro hwh
      rw [hwh, div_self hh']
      constructor <;> ring
    · rintro ⟨hx, -⟩
      have hDiv : D * (w / h) = D * 1 := by linarith
      have h1 : w / h = 1 := mul_left_cancel₀ (ne_of_gt hD) hDiv
      rw [div_eq_one_iff_eq hh'] at h1
      exact h1

/-- C3, the claim as stated is false: for a square source every offset is
0, so it is not the case that exactly one of the two offsets is 0. -/
theorem offsets_square_counterexample :
    ¬ (((resizeGeometry 100 100 1024).offsetX = 0 ∧
          ¬ (resizeGeometry 100 100 1024).offsetY = 0) ∨
        (¬ (resizeGeometry 100 100 1024).offsetX = 0 ∧
          (resizeGeometry 100 100 1024).offsetY = 0)) := by
  norm_num [resizeGeometry]

theorem crop_restores_source_aspect_witness :
    (cropToOriginalAspect 1600 900 1024).width =
      (resizeImage ("image/png") 1600 900 1024).content.contentWidth ∧
    (cropToOriginalAspect 1600 900 1024).height =
      (resizeImage ("image/png") 1600 900 1024).content.contentHeight ∧
    (cropToOriginalAspect 1600 900 1024).srcX =
      (resizeImage ("image/png") 1600 900 1024).content.offsetX ∧
    (cropToOriginalAspect 1600 900 1024).srcY =
      (resizeImage ("image/png") 1600 900 1024).content.offsetY ∧
    (cropToOriginalAspect 1600 900 1024).width / (cropToOriginalAspect 1600 900 1024).height =
      1600 / 900 ∧
    |(((cropToOriginalAspect 1600 900 1024).canvasWidth : ℤ) : ℚ) -
        (cropToOriginalAspect 1600 900 1024).width| < 1 ∧
    |(((cropToOriginalAspect 1600 900 1024).canvasHeight : ℤ) : ℚ) -
        (cropToOriginalAspect 1600 900 1024).height| < 1 :=
  crop_restores_source_aspect ("image/png") 1600 900 1024
    (by norm_num) (by norm_num) (by norm_num)

theorem offsets_nonneg_one_axis_zero_witness :
    0 ≤ (resizeGeometry 1600 900 1024).offsetX ∧
    0 ≤ (resizeGeometry 1600 900 1024).offsetY ∧
    ((resizeGeometry 1600 900 1024).offsetX = 0 ∨
      (resizeGeometry 1600 900 1024).offsetY = 0) ∧
    ((1600 : ℚ) = 900 ↔ ((resizeGeometry 1600 900 1024).offsetX = 0 ∧
      (resizeGeometry 1600 900 1024).offsetY = 0)) :=
  offsets_nonneg_one_axis_zero 1600 900 1024
    (by norm_num) (by norm_num) (by norm_num)

lemma smartPositionGo_congr (isTile : Bool) (placed : List PlacedPosition)
    (rng rng' : ℕ → Draw) :
    ∀ (fuel attempt : ℕ),
      (∀ k, attempt ≤ k → k < attempt + fuel → rng k = rng' k) →
      smartPositionGo isTile placed rng attempt fuel =
        smartPositionGo isTile placed rng' attempt fuel := by
  intro fuel
  induction fuel with
  | zero => intro attempt _; rfl
  | succ n ih =>
    intro attempt hagree
    have h0 : rng attempt = rng' attempt :=
      hagree attempt le_rfl (by omega)
    simp only [smartPositionGo, h0]
    split
    · exact ih (attempt + 1) fun k hk1 hk2 => hagree k (by omega) (by omega)
    · rfl

lemma smartPositionGo_spec (isTile : Bool) (placed : List PlacedPosition)
    (rng : ℕ → Draw) :
    ∀ (fuel attempt : ℕ),
      (∃ k, attempt ≤ k ∧ k < attempt + fuel ∧
        smartPositionGo isTile placed rng attempt fuel = candidate isTile (rng k) ∧
        conflicts (candidate isTile (rng k)) placed = false) ∨
      (smartPositionGo isTile placed rng attempt fuel =
          fallbackPosition isTile placed.length ∧
        ∀ k, attempt ≤ k → k < attempt + fuel →
          conflicts (candidate isTile (rng k)) placed = true) := by
  intro fuel
  induction fuel with
  | zero =>
    intro attempt
    exact Or.inr ⟨rfl, fun k h1 h2 => absurd h2 (by omega)⟩
  | succ n ih =>
    intro attempt
    by_cases hc : conflicts (candidate isTile (rng attempt)) placed = true
    · have hstep : smartPositionGo isTile placed rng attempt (n + 1) =
          smartPositionGo isTile placed rng (attempt + 1) n := by
        simp only [smartPositionGo, hc, if_true]
      rcases ih (attempt + 1) with ⟨k, h1, h2, h3, h4⟩ | ⟨h1, h2⟩
      · exact Or.inl ⟨k, by omega, by omega, hstep.trans h3, h4⟩
      · refine Or.inr ⟨hstep.trans h1, fun k hk1 hk2 => ?_⟩
        by_cases hke : k = attempt
        · rw [hke]; exact hc
        · exact h2 k (by omega) (by omega)
    · have hcf : conflicts (candidate isTile (rng attempt)) placed = false :=
        Bool.not_eq_true _ ▸ Bool.eq_false_iff.mpr hc
      have hstep : smartPositionGo isTile placed rng attempt (n + 1) =
          candidate isTile (rng attempt) := by
        simp only [smartPositionGo, hcf, Bool.false_eq_true, if_false]
      exact Or.inl ⟨attempt, le_rfl, by omega, hstep, hcf⟩

lemma conflicts_eq_false_iff (p : Position) (placed : List PlacedPosition) :
    conflicts p placed = false ↔
      ∀ q ∈ placed,
        25 ^ 2 ≤ (p.xPercent - q.xPercent) ^ 2 + (p.yPercent - q.yPercent) ^ 2 := by
  simp [conflicts, List.any_eq_false, not_lt]

lemma gsp_accepted_no_conflict (isTile : Bool) (placed : List PlacedPosition)
    (rng : ℕ → Draw) (h : accepted isTile placed rng) :
    conflicts (generateSmartPosition isTile placed rng) placed = false := by
  obtain ⟨k, hk, hkf⟩ := h
  rcases smartPositionGo_spec isTile placed rng 50 0 with ⟨j, _, _, h3, h4⟩ | ⟨-, hall⟩
  · unfold generateSmartPosition
    rw [h3]; exact h4
  · rw [hall k (by omega) (by omega)] at hkf
    exact absurd hkf (by simp)

lemma gsp_accepted_separation (isTile : Bool) (placed : List PlacedPosition)
    (rng : ℕ → Draw) (h : accepted isTile placed rng) :
    ∀ q ∈ placed,
      25 ^ 2 ≤ ((generateSmartPosition isTile placed rng).xPercent - q.xPercent) ^ 2 +
        ((generateSmartPosition isTile placed rng).yPercent - q.yPercent) ^ 2 :=
  (conflicts_eq_false_iff _ _).mp (gsp_accepted_no_conflict isTile placed rng h)

lemma separated_symm {p q : PlacedPosition} (h : separated p q) : separated q p := by
  unfold separated at h ⊢
  have hx : (q.xPercent - p.xPercent) ^ 2 = (p.xPercent - q.xPercent) ^ 2 := by ring
  have hy : (q.yPercent - p.yPercent) ^ 2 = (p.yPercent - q.yPercent) ^ 2 := by ring
  rw [hx, hy]; exact h

lemma placeSeq_pairwise :
    ∀ (items : List (Bool × (ℕ → Draw))) (acc : List PlacedPosition),
      acc.Pairwise separated → stepwiseAccepted acc items →
      (placeSeq acc items).Pairwise separated := by
  intro items
  induction items with
  | nil => intro acc hacc _; simpa [placeSeq] using hacc
  | cons it rest ih =>
    obtain ⟨t, rng⟩ := it
    intro acc hacc hstep
    obtain ⟨hacc1, hrest⟩ := hstep
    refine ih _ ?_ hrest
    rw [List.pairwise_append]
    refine ⟨hacc, List.pairwise_singleton _ _, ?_⟩
    intro a ha b hb
    rw [List.mem_singleton] at hb
    subst hb
    exact separated_symm (gsp_accepted_separation t acc rng hacc1 a ha)

/-- C5: the placement search consults at most the first 50 draws of the
random source, and whenever all 50 candidate draws conflict with the
already-placed positions it returns the deterministic fallback
x = 20 + (count*20) % 60 with y = 15 + (count*10) % 25 for tiles and
70 + (count*10) % 20 for plants (count the number of already-placed
positions); being a total function of the explicit random source it
always returns a position. -/
theorem smartPosition_bounded_and_fallback :
    (∀ (isTile : Bool) (placed : List PlacedPosition) (rng rng' : ℕ → Draw),
      (∀ k, k < 50 → rng k = rng' k) →
      generateSmartPosition isTile placed rng =
        generateSmartPosition isTile placed rng') ∧
    (∀ (isTile : Bool) (placed : List PlacedPosition) (rng : ℕ → Draw),
      (∀ k, k < 50 → conflicts (candidate isTile (rng k)) placed = true) →
      generateSmartPosition isTile placed rng =
        { xPercent := ((20 + (placed.length * 20) % 60 : ℕ) : ℚ)
          yPercent := if isTile then ((15 + (placed.length * 10) % 25 : ℕ) : ℚ)
                      else ((70 + (placed.length * 10) % 20 : ℕ) : ℚ) }) := by
  constructor
  · intro isTile placed rng rng' hagree
    exact smartPositionGo_congr isTile placed rng rng' 50 0
      fun k hk1 hk2 => hagree k (by omega)
  · intro isTile placed rng hall
    rcases smartPositionGo_spec isTile placed rng 50 0 with ⟨k, _, hk2, -, h4⟩ | ⟨h1, -⟩
    · rw [hall k (by omega)] at h4
      exact absurd h4 (by simp)
    · exact h1

/-- C6: a position the search accepts from a randomized draw (rather
than producing by the fallback formula) is at squared Euclidean
percentage distance at least 25^2 — i.e. distance at least 25 — from
every previously placed position; consequently, in a sequential run in
which every step accepted a draw, all pairs of placed positions are
separated by at least that distance. -/
theorem accepted_draw_min_separation :
    (∀ (isTile : Bool) (placed : List PlacedPosition) (rng : ℕ → Draw),
      accepted isTile placed rng →
      ∀ q ∈ placed,
        25 ^ 2 ≤ ((generateSmartPosition isTile placed rng).xPercent - q.xPercent) ^ 2 +
          ((generateSmartPosition isTile placed rng).yPercent - q.yPercent) ^ 2) ∧
    (∀ items : List (Bool × (ℕ → Draw)),
      stepwiseAccepted [] items → (placeSeq [] items).Pairwise separated) :=
  ⟨gsp_accepted_separation,
    fun items h => placeSeq_pairwise items [] (List.Pairwise.nil) h⟩

theorem smartPosition_bounded_and_fallback_witness :
    generateSmartPosition true [⟨5, 10, ProductType.plant⟩] (fun _ => ⟨0, 0, 0⟩) =
      ⟨40, 25⟩ := by
  have h := smartPosition_bounded_and_fallback.2 true [⟨5, 10, ProductType.plant⟩]
    (fun _ => ⟨0, 0, 0⟩)
    (fun k _ => by norm_num [conflicts, candidate, pickZone, wallAreas])
  rw [h]
  norm_num

theorem accepted_draw_min_separation_witness :
    25 ^ 2 ≤
      ((generateSmartPosition true [⟨90, 90, ProductType.plant⟩] (fun _ => ⟨0, 0, 0⟩)).xPercent -
          90) ^ 2 +
        ((generateSmartPosition true [⟨90, 90, ProductType.plant⟩] (fun _ => ⟨0, 0, 0⟩)).yPercent -
          90) ^ 2 := by
  have h := accepted_draw_min_separation.1 true [⟨90, 90, ProductType.plant⟩]
    (fun _ => ⟨0, 0, 0⟩)
    ⟨0, by omega, by norm_num [conflicts, candidate, pickZone, wallAreas]⟩
    ⟨90, 90, ProductType.plant⟩ (by simp)
  simpa using h

lemma pickZone_mem (areas : List Zone) (hne : areas ≠ []) (r : ℚ)
    (h0 : 0 ≤ r) (h1 : r < 1) : pickZone areas r ∈ areas := by
  have hlen : 0 < areas.length := List.length_pos.mpr hne
  have hcast : (0 : ℚ) < (areas.length : ℚ) := by exact_mod_cast hlen
  have hmul : r * (areas.length : ℚ) < (areas.length : ℚ) := by nlinarith
  have hmul0 : (0 : ℚ) ≤ r * (areas.length : ℚ) := mul_nonneg h0 hcast.le
  have hfl : ⌊r * (areas.length : ℚ)⌋ < (areas.length : ℤ) := by
    rw [Int.floor_lt]; exact_mod_cast hmul
  have hfl0 : 0 ≤ ⌊r * (areas.length : ℚ)⌋ := Int.floor_nonneg.mpr hmul0
  have hidx : (⌊r * (areas.length : ℚ)⌋).toNat < areas.length := by omega
  rw [pickZone, List.getD_eq_getElem _ _ hidx]
  exact List.getElem_mem hidx

lemma candidate_coord_bounds {a b r : ℚ} (hab : a ≤ b) (h0 : 0 ≤ r) (h1 : r < 1) :
    a ≤ a + r * (b - a) ∧ a + r * (b - a) ≤ b := by
  constructor <;> nlinarith

lemma candidate_mem_zone (isTile : Bool) (d : Draw) (hd : validDraw d) :
    ∃ z ∈ (if isTile then wallAreas else surfaceAreas),
      z.xMin ≤ (candidate isTile d).xPercent ∧ (candidate isTile d).xPercent ≤ z.xMax ∧
      z.yMin ≤ (candidate isTile d).yPercent ∧ (candidate isTile d).yPercent ≤ z.yMax := by
  obtain ⟨hz0, hz1, hx0, hx1, hy0, hy1⟩ := hd
  have hne : (if isTile then wallAreas else surfaceAreas) ≠ [] := by
    cases isTile <;> simp [wallAreas, surfaceAreas]
  have hmem := pickZone_mem (if isTile then wallAreas else surfaceAreas) hne
    d.zoneRand hz0 hz1
  refine ⟨pickZone (if isTile then wallAreas else surfaceAreas) d.zoneRand, hmem, ?_⟩
  have hxy : ∀ z ∈ (if isTile then wallAreas else surfaceAreas),
      z.xMin ≤ z.xMax ∧ z.yMin ≤ z.yMax := by
    cases isTile <;> · intro z hz; fin_cases hz <;> norm_num
  obtain ⟨hxle, hyle⟩ := hxy _ hmem
  have hx := candidate_coord_bounds hxle hx0 hx1
  have hy := candidate_coord_bounds hyle hy0 hy1
  simp only [candidate]
  exact ⟨hx.1, hx.2, hy.1, hy.2⟩

/-- C7: for category tile with no prior occupied regions, every draw of
the random source puts the returned position inside one of the three
wall rectangles: left wall x in [5,25], y in [10,40]; right wall
x in [75,95], y in [10,40]; top wall x in [20,80], y in [5,25]. -/
theorem tile_draws_land_in_wall_rectangles (rng : ℕ → Draw)
    (hd : validDraw (rng 0)) :
    (5 ≤ (generateSmartPosition true [] rng).xPercent ∧
      (generateSmartPosition true [] rng).xPercent ≤ 25 ∧
      10 ≤ (generateSmartPosition true [] rng).yPercent ∧
      (generateSmartPosition true [] rng).yPercent ≤ 40) ∨
    (75 ≤ (generateSmartPosition true [] rng).xPercent ∧
      (generateSmartPosition true [] rng).xPercent ≤ 95 ∧
      10 ≤ (generateSmartPosition true [] rng).yPercent ∧
      (generateSmartPosition true [] rng).yPercent ≤ 40) ∨
    (20 ≤ (generateSmartPosition true [] rng).xPercent ∧
      (generateSmartPosition true [] rng).xPercent ≤ 80 ∧
      5 ≤ (generateSmartPosition true [] rng).yPercent ∧
      (generateSmartPosition true [] rng).yPercent ≤ 25) := by
  have hfirst : generateSmartPosition true [] rng = candidate true (rng 0) := rfl
  rw [hfirst]
  obtain ⟨z, hzmem, hzx1, hzx2, hzy1, hzy2⟩ := candidate_mem_zone true (rng 0) hd
  simp only [if_true] at hzmem
  fin_cases hzmem
  · exact Or.inl ⟨hzx1, hzx2, hzy1, hzy2⟩
  · exact Or.inr (Or.inl ⟨hzx1, hzx2, hzy1, hzy2⟩)
  · exact Or.inr (Or.inr ⟨hzx1, hzx2, hzy1, hzy2⟩)

theorem tile_draws_land_in_wall_rectangles_witness :
    (5 ≤ (generateSmartPosition true [] fun _ => ⟨1/2, 1/2, 1/2⟩).xPercent ∧
      (generateSmartPosition true [] fun _ => ⟨1/2, 1/2, 1/2⟩).xPercent ≤ 25 ∧
      10 ≤ (generateSmartPosition true [] fun _ => ⟨1/2, 1/2, 1/2⟩).yPercent ∧
      (generateSmartPosition true [] fun _ => ⟨1/2, 1/2, 1/2⟩).yPercent ≤ 40) ∨
    (75 ≤ (generateSmartPosition true [] fun _ => ⟨1/2, 1/2, 1/2⟩).xPercent ∧
      (generateSmartPosition true [] fun _ => ⟨1/2, 1/2, 1/2⟩).xPercent ≤ 95 ∧
      10 ≤ (generateSmartPosition true [] fun _ => ⟨1/2, 1/2, 1/2⟩).yPercent ∧
      (generateSmartPosition true [] fun _ => ⟨1/2, 1/2, 1/2⟩).yPercent ≤ 40) ∨
    (20 ≤ (generateSmartPosition true [] fun _ => ⟨1/2, 1/2, 1/2⟩).xPercent ∧
      (generateSmartPosition true [] fun _ => ⟨1/2, 1/2, 1/2⟩).xPercent ≤ 80 ∧
      5 ≤ (generateSmartPosition true [] fun _ => ⟨1/2, 1/2, 1/2⟩).yPercent ∧
      (generateSmartPosition true [] fun _ => ⟨1/2, 1/2, 1/2⟩).yPercent ≤ 25) :=
  tile_draws_land_in_wall_rectangles (fun _ => ⟨1/2, 1/2, 1/2⟩)
    (by norm_num [validDraw])

/-- C10: with no already-placed positions the conflict check rejects
nothing, so the very first randomized draw is accepted and returned —
the fallback branch is unreachable — and, for any possible draw of the
random source, the result lies inside one of the category's predefined
zones. -/
theorem empty_placed_first_draw_accepted (isTile : Bool) (rng : ℕ → Draw) :
    conflicts (candidate isTile (rng 0)) [] = false ∧
    generateSmartPosition isTile [] rng = candidate isTile (rng 0) ∧
    (validDraw (rng 0) →
      ∃ z ∈ (if isTile then wallAreas else surfaceAreas),
        z.xMin ≤ (generateSmartPosition isTile [] rng).xPercent ∧
        (generateSmartPosition isTile [] rng).xPercent ≤ z.xMax ∧
        z.yMin ≤ (generateSmartPosition isTile [] rng).yPercent ∧
        (generateSmartPosition isTile [] rng).yPercent ≤ z.yMax) := by
  refine ⟨rfl, rfl, fun hd => ?_⟩
  have h := candidate_mem_zone isTile (rng 0) hd
  simpa using h

/-- C8: the placement-rule lookup is total: it returns a non-empty
instruction string for every category and size; for tiles the rule is
the wall-placement rule mentioning eye level 57-60 inches; for plants of
lowercased size small the rule mentions elevated surfaces; and every
plant size whose lowercasing is outside small/medium/large/huge gets the
default fallback instruction. -/
theorem placement_rules_total_lookup (pt : ProductType) (s : String) :
    0 < (getPlacementInstructions pt s).length ∧
    (pt = ProductType.tile →
      ∃ a b, getPlacementInstructions pt s = a ++ "57-60 inches" ++ b) ∧
    (pt = ProductType.plant → lowercase s = "small" →
      ∃ a b, getPlacementInstructions pt s = a ++ "elevated surfaces" ++ b) ∧
    (pt = ProductType.plant → lowercase s ≠ "small" → lowercase s ≠ "medium" →
      lowercase s ≠ "large" → lowercase s ≠ "huge" →
      getPlacementInstructions pt s = defaultPlantInstructions) := by
  refine ⟨?_, ?_, ?_, ?_⟩
  · cases pt
    · simp only [getPlacementInstructions, plantInstructionsFor]
      split_ifs
      · exact (by decide : 0 < smallPlantInstructions.length)
      · exact (by decide : 0 < mediumPlantInstructions.length)
      · exact (by decide : 0 < largePlantInstructions.length)
      · exact (by decide : 0 < hugePlantInstructions.length)
      · exact (by decide : 0 < defaultPlantInstructions.length)
    · exact (by decide : 0 < tileInstructions.length)
  · intro hpt; subst hpt
    refine ⟨"Place the gallery wall (3-4 pictures arranged together) on a wall surface in the room. Look for empty wall spaces, above furniture like sofas or beds, in hallways, or on feature walls. Position it at eye level (typically ",
      " from the floor) and ensure it complements the room\x27s existing decor and color scheme. The gallery wall should be properly sized and oriented for the wall space, maintaining the same shape and arrangement of the 3-4 pictures together.", ?_⟩
    rfl
  · intro hpt hsmall; subst hpt
    simp only [getPlacementInstructions]
    rw [hsmall]
    refine ⟨"Place the plant on ",
      " like desks, tables, shelves, or countertops where there is reasonable space. Choose locations that make sense for small plants - near windows, on side tables, or on work surfaces.", ?_⟩
    rfl
  · intro hpt h1 h2 h3 h4; subst hpt
    simp only [getPlacementInstructions, plantInstructionsFor,
      if_neg h1, if_neg h2, if_neg h3, if_neg h4]

theorem placement_rules_total_lookup_witness :
    (∃ a b, getPlacementInstructions ProductType.tile ("gallery-wall") =
      a ++ "57-60 inches" ++ b) ∧
    (∃ a b, getPlacementInstructions ProductType.plant ("Small") =
      a ++ "elevated surfaces" ++ b) ∧
    getPlacementInstructions ProductType.plant ("gigantic") =
      defaultPlantInstructions ∧
    0 < (getPlacementInstructions ProductType.plant ("gigantic")).length :=
  ⟨(placement_rules_total_lookup ProductType.tile ("gallery-wall")).2.1 rfl,
    (placement_rules_total_lookup ProductType.plant ("Small")).2.2.1 rfl (by decide),
    (placement_rules_total_lookup ProductType.plant ("gigantic")).2.2.2 rfl
      (by decide) (by decide) (by decide) (by decide),
    (placement_rules_total_lookup ProductType.plant ("gigantic")).1⟩

theorem empty_placed_first_draw_accepted_witness :
    conflicts (candidate false ((fun _ => (⟨1/2, 1/2, 1/2⟩ : Draw)) 0)) [] = false ∧
    generateSmartPosition false [] (fun _ => ⟨1/2, 1/2, 1/2⟩) =
      candidate false ((fun _ => (⟨1/2, 1/2, 1/2⟩ : Draw)) 0) ∧
    (∃ z ∈ (if false then wallAreas else surfaceAreas),
      z.xMin ≤ (generateSmartPosition false [] fun _ => ⟨1/2, 1/2, 1/2⟩).xPercent ∧
      (generateSmartPosition false [] fun _ => ⟨1/2, 1/2, 1/2⟩).xPercent ≤ z.xMax ∧
      z.yMin ≤ (generateSmartPosition false [] fun _ => ⟨1/2, 1/2, 1/2⟩).yPercent ∧
      (generateSmartPosition false [] fun _ => ⟨1/2, 1/2, 1/2⟩).yPercent ≤ z.yMax) :=
  ⟨(empty_placed_first_draw_accepted false (fun _ => ⟨1/2, 1/2, 1/2⟩)).1,
    (empty_placed_first_draw_accepted false (fun _ => ⟨1/2, 1/2, 1/2⟩)).2.1,
    (empty_placed_first_draw_accepted false (fun _ => ⟨1/2, 1/2, 1/2⟩)).2.2
      (by norm_num [validDraw])⟩

/-- C4: when the generation response contains no image part the
composition fails with the no-image error (no fallback image is
substituted), and the single-item caller of src/unnamed/part_008 leaves
its scene image — as well as its published result and wizard step —
unchanged from before the call. -/
theorem no_image_fails_scene_unchanged (r : GenerateContentResponse)
    (w h D : ℚ) (st : AppState8) (now : ℕ)
    (hscene : st.sceneImage.isSome = true)
    (hprod : st.selectedProduct.isSome = true)
    (hno : (findImagePart r).bind ResponsePart.inlineData = none) :
    generateCompositeImageOutcome r w h D = Except.error noImageMsg ∧
    (handleApplyProducts8 st (composeOutcomeUrl r w h D) now).sceneImage =
      st.sceneImage ∧
    (handleApplyProducts8 st (composeOutcomeUrl r w h D) now).error =
      some ("Failed to apply product. " ++ noImageMsg) ∧
    (handleApplyProducts8 st (composeOutcomeUrl r w h D) now).finalResult =
      st.finalResult ∧
    (handleApplyProducts8 st (composeOutcomeUrl r w h D) now).currentStep =
      st.currentStep := by
  have hout : generateCompositeImageOutcome r w h D = Except.error noImageMsg := by
    unfold generateCompositeImageOutcome
    rw [hno]
  have hurl : composeOutcomeUrl r w h D = Except.error noImageMsg := by
    unfold composeOutcomeUrl
    rw [hout]
    rfl
  obtain ⟨s, hs⟩ := Option.isSome_iff_exists.mp hscene
  obtain ⟨p, hp⟩ := Option.isSome_iff_exists.mp hprod
  refine ⟨hout, ?_, ?_, ?_, ?_⟩ <;>
    simp [handleApplyProducts8, hurl, hs, hp]

theorem no_image_fails_scene_unchanged_witness :
    generateCompositeImageOutcome emptyResponse 1600 900 1024 =
      Except.error noImageMsg ∧
    (handleApplyProducts8 appState8Start
        (composeOutcomeUrl emptyResponse 1600 900 1024) 0).sceneImage =
      appState8Start.sceneImage ∧
    (handleApplyProducts8 appState8Start
        (composeOutcomeUrl emptyResponse 1600 900 1024) 0).error =
      some ("Failed to apply product. " ++ noImageMsg) ∧
    (handleApplyProducts8 appState8Start
        (composeOutcomeUrl emptyResponse 1600 900 1024) 0).finalResult =
      appState8Start.finalResult ∧
    (handleApplyProducts8 appState8Start
        (composeOutcomeUrl emptyResponse 1600 900 1024) 0).currentStep =
      appState8Start.currentStep :=
  no_image_fails_scene_unchanged emptyResponse 1600 900 1024 appState8Start 0
    rfl rfl rfl

lemma applyProductsLoop_error (gen : ℕ → Except String String)
    (rng : ℕ → ℕ → Draw) (now : ℕ → ℕ) (e : String) :
    ∀ (k : ℕ) (products : List Product9) (idx : ℕ) (scene : SceneFile)
      (placed : List PlacedPosition),
      k < products.length →
      (∀ j, j < k → ∃ u, gen (idx + j) = Except.ok u) →
      gen (idx + k) = Except.error e →
      applyProductsLoop gen rng now products idx scene placed =
        Except.error (e, sceneUpTo gen now scene idx k) := by
  intro k
  induction k with
  | zero =>
    intro products idx scene placed hlen _ herr
    cases products with
    | nil => simp at hlen
    | cons p rest =>
      rw [Nat.add_zero] at herr
      simp only [applyProductsLoop, herr]
      rfl
  | succ n ih =>
    intro products idx scene placed hlen hok herr
    cases products with
    | nil => simp at hlen
    | cons p rest =>
      obtain ⟨u, hu⟩ := hok 0 (Nat.succ_pos n)
      rw [Nat.add_zero] at hu
      have hok' : ∀ j, j < n → ∃ v, gen (idx + 1 + j) = Except.ok v := by
        intro j hj
        obtain ⟨v, hv⟩ := hok (j + 1) (by omega)
        refine ⟨v, ?_⟩
        rw [show idx + 1 + j = idx + (j + 1) from by omega]
        exact hv
      have herr' : gen (idx + 1 + n) = Except.error e := by
        rw [show idx + 1 + n = idx + (n + 1) from by omega]
        exact herr
      have hlen' : n < rest.length := by
        simp only [List.length_cons] at hlen
        omega
      simp only [applyProductsLoop, hu]
      rw [ih rest (idx + 1) _ _ hlen' hok' herr']
      have hscenes : sceneUpTo gen now
          (dataURLtoFile u ("generated-scene-" ++ toString (now idx) ++ ".jpeg"))
          (idx + 1) n = sceneUpTo gen now scene idx (n + 1) := by
        cases n with
        | zero =>
          simp only [sceneUpTo, Nat.add_zero]
          rw [hu]
        | succ m =>
          obtain ⟨v, hv⟩ := hok (m + 1) (by omega)
          simp only [sceneUpTo]
          rw [show idx + 1 + m = idx + (m + 1) from by omega, hv]
      rw [hscenes]

/-- C9 (amended): in a multi-item run the chain aborts at the first
failing item: the error is surfaced, the failing item's output is
discarded, no success response occurs (the selection is not cleared and
the wizard step does not advance), but the scene state is not rolled
back — it retains the composite produced by the last successful item
before the failure. -/
theorem multi_item_failure_keeps_progress (st : AppState9)
    (scene : SceneFile) (gen : ℕ → Except String String)
    (rng : ℕ → ℕ → Draw) (now : ℕ → ℕ) (k : ℕ) (e : String)
    (hscene : st.sceneImage = some scene)
    (hk : k < st.selectedProducts.length)
    (hok : ∀ j, j < k → ∃ u, gen j = Except.ok u)
    (herr : gen k = Except.error e) :
    (handleApplyProducts9 st gen rng now).error =
      some ("Failed to apply products. " ++ e) ∧
    (handleApplyProducts9 st gen rng now).selectedProducts =
      st.selectedProducts ∧
    (handleApplyProducts9 st gen rng now).currentStep = st.currentStep ∧
    (handleApplyProducts9 st gen rng now).isLoading = false ∧
    (handleApplyProducts9 st gen rng now).sceneImage =
      some (sceneUpTo gen now scene 0 k) := by
  have hlen : ¬ st.selectedProducts.length = 0 := by omega
  have hloop := applyProductsLoop_error gen rng now e k st.selectedProducts 0
    scene [] hk
    (fun j hj => by rw [Nat.zero_add]; exact hok j hj)
    (by rw [Nat.zero_add]; exact herr)
  simp only [handleApplyProducts9, if_neg hlen, hscene, hloop]
  simp

/-- C9 as stated is refuted: with two selected products where the first
composites successfully and the second fails, the scene image after the
call is the composite produced by the first item — the partial result
produced before the failing item is kept in the scene state, not
discarded. -/
theorem multi_item_discard_counterexample :
    (handleApplyProducts9 appState9Start genFailSecond (fun _ _ => ⟨0, 0, 0⟩)
        (fun _ => 0)).sceneImage =
      some ⟨"data:image/jpeg;base64,item1", "generated-scene-0.jpeg"⟩ ∧
    (handleApplyProducts9 appState9Start genFailSecond (fun _ _ => ⟨0, 0, 0⟩)
        (fun _ => 0)).sceneImage ≠ appState9Start.sceneImage := by
  constructor
  · rfl
  · decide

theorem multi_item_failure_keeps_progress_witness :
    (handleApplyProducts9 appState9Start genFailSecond (fun _ _ => ⟨0, 0, 0⟩)
        (fun _ => 0)).error =
      some ("Failed to apply products. " ++ "service failure") ∧
    (handleApplyProducts9 appState9Start genFailSecond (fun _ _ => ⟨0, 0, 0⟩)
        (fun _ => 0)).selectedProducts = appState9Start.selectedProducts ∧
    (handleApplyProducts9 appState9Start genFailSecond (fun _ _ => ⟨0, 0, 0⟩)
        (fun _ => 0)).currentStep = appState9Start.currentStep ∧
    (handleApplyProducts9 appState9Start genFailSecond (fun _ _ => ⟨0, 0, 0⟩)
        (fun _ => 0)).isLoading = false ∧
    (handleApplyProducts9 appState9Start genFailSecond (fun _ _ => ⟨0, 0, 0⟩)
        (fun _ => 0)).sceneImage =
      some (sceneUpTo genFailSecond (fun _ => 0) scene0File 0 1) :=
  multi_item_failure_keeps_progress appState9Start scene0File genFailSecond
    (fun _ _ => ⟨0, 0, 0⟩) (fun _ => 0) 1 ("service failure") rfl
    (by decide)
    (fun j hj => by
      have hj0 : j = 0 := by omega
      subst hj0
      exact ⟨"data:image/jpeg;base64,item1", rfl⟩)
    rfl

end SmartDesign
